import Mathlib

/-!
Verification of the persistence/session layer and HTTP route handlers of the
react-app-db repository: a React Router application over an in-memory SQLite
engine (sql.js) with full-file export on every mutation.

The development embeds, as executable Lean definitions:
  * a JSON value model and the JavaScript coercions the route code uses
    (truthiness, String(), parseInt);
  * the database state (users and tasks tables with AUTOINCREMENT
    sequences) and the CRUD operations of app/db.ts;
  * the byte-buffer serialization of the whole database (db.export /
    saveDatabase) together with a decoder, and the session singleton
    (getDatabase);
  * the route handlers of app/routes/api.tasks, app/routes/api.users,
    app/routes/home and the customer detail loader, parameterized over the
    database calls they perform, recording the calls they make;
  * the createApiResponse helper of app/utils/api.ts.
-/

namespace ReactAppDb

/-! ## JSON values and JavaScript coercions -/

/-- JSON values, as produced by request.json() and consumed by json(). -/
inductive Json : Type where
  | null : Json
  | bool (b : Bool) : Json
  | num (n : Int) : Json
  | str (s : String) : Json
  | arr (xs : List Json) : Json
  | obj (fields : List (String × Json)) : Json

/-- JavaScript truthiness of a JSON value: null, false, 0 and the empty
string are falsy; arrays and objects are always truthy. -/
def jsTruthy : Json → Bool
  | .null => false
  | .bool b => b
  | .num n => n != 0
  | .str s => s != ""
  | .arr _ => true
  | .obj _ => true

/-- Truthiness of a possibly absent value (undefined is falsy). -/
def jsTruthyOpt : Option Json → Bool
  | none => false
  | some v => jsTruthy v

mutual

/-- The JavaScript String() conversion on JSON values. -/
def jsString : Json → String
  | .null => "null"
  | .bool b => cond b "true" "false"
  | .num n => toString n
  | .str s => s
  | .arr xs => String.intercalate "," (jsStringList xs)
  | .obj _ => "[object Object]"

/-- String() applied pointwise to array elements. -/
def jsStringList : List Json → List String
  | [] => []
  | x :: xs => jsString x :: jsStringList xs

end

/-- String() of a possibly absent value. -/
def jsStringOpt : Option Json → String
  | none => "undefined"
  | some v => jsString v

/-- Truthiness of an optional string, as for URLSearchParams.get results
and FormData.get results: absent and empty are falsy. -/
def strTruthy : Option String → Bool
  | none => false
  | some s => s != ""

/-- Accumulate the leading decimal digits of a character list; none when no
digit has been seen. -/
def parseDigits : List Char → Option Nat → Option Nat
  | [], acc => acc
  | c :: cs, acc =>
    if c.isDigit then parseDigits cs (some ((acc.getD 0) * 10 + (c.toNat - 48)))
    else acc

/-- The JavaScript parseInt on a string: skip leading spaces, optional
sign, then the longest digit run; none models NaN. -/
def jsParseInt (s : String) : Option Int :=
  match s.data.dropWhile (· = ' ') with
  | '-' :: rest => (parseDigits rest none).map (fun n => -(n : Int))
  | '+' :: rest => (parseDigits rest none).map (fun n => (n : Int))
  | cs => (parseDigits cs none).map (fun n => (n : Int))

/-! ## The result container (neverthrow Result) -/

/-- The success/failure container returned by every core database
operation (the neverthrow Result type). -/
inductive Result (α : Type) (ε : Type) : Type where
  | ok (value : α) : Result α ε
  | err (error : ε) : Result α ε
  deriving DecidableEq, Repr

/-- Map the success value of a result. -/
def Result.map {α β ε : Type} (f : α → β) : Result α ε → Result β ε
  | .ok v => .ok (f v)
  | .err e => .err e

/-- Whether a result is a success. -/
def Result.isOk {α ε : Type} : Result α ε → Bool
  | .ok _ => true
  | .err _ => false

/-- The DATABASE_ERROR descriptor: a message plus an optional wrapped
cause. -/
structure DbError : Type where
  message : String
  cause : Option String
  deriving DecidableEq, Repr

/-! ## Database state -/

/-- A row of the users table: id INTEGER PRIMARY KEY AUTOINCREMENT,
name TEXT NOT NULL, email TEXT NOT NULL UNIQUE, created_at DATETIME. -/
structure UserRow : Type where
  id : Nat
  name : String
  email : String
  created_at : String
  deriving DecidableEq, Repr

/-- A row of the tasks table: id INTEGER PRIMARY KEY AUTOINCREMENT,
user_id INTEGER NOT NULL, title TEXT NOT NULL, description TEXT,
completed BOOLEAN DEFAULT 0, created_at DATETIME. -/
structure TaskRow : Type where
  id : Nat
  user_id : Nat
  title : String
  description : String
  completed : Bool
  created_at : String
  deriving DecidableEq, Repr

/-- The in-memory engine state: both tables plus the sqlite_sequence
AUTOINCREMENT counters. The existence of the two tables created by the
schema statements is implicit in the state type. -/
structure DBState : Type where
  users : List UserRow
  tasks : List TaskRow
  userSeq : Nat
  taskSeq : Nat
  deriving DecidableEq, Repr

/-- The fresh engine after executing the two CREATE TABLE statements:
both tables exist and are empty, both sequences start at 0. -/
def freshDatabase : DBState :=
  { users := [], tasks := [], userSeq := 0, taskSeq := 0 }

/-! ## Core database operations

app/db.ts is not part of the provided sources (only its README
documentation, its callers and its tests are), so the operations below are
modelled from the spec: each executes one SQL statement against the shared
engine and wraps the outcome in the success/failure container; a
uniqueness violation on users.email surfaces as a DATABASE_ERROR. -/

/-- Modelled from the spec: getUsers runs SELECT * FROM users and returns
all rows. -/
def getUsers (s : DBState) : Result (List UserRow) DbError :=
  .ok s.users

/-- Modelled from the spec: getUser runs SELECT * FROM users WHERE id = ?
and returns the first matching row, if any. -/
def getUser (id : Nat) (s : DBState) : Result (Option UserRow) DbError :=
  .ok (s.users.find? (fun u => u.id == id))

/-- Modelled from the spec: createUser inserts a row with the next
AUTOINCREMENT id; a duplicate email violates the UNIQUE constraint and
surfaces as a single DATABASE_ERROR, leaving the state unchanged. -/
def createUser (now name email : String) (s : DBState) :
    Result UserRow DbError × DBState :=
  if s.users.any (fun u => u.email == email) then
    (.err { message := "UNIQUE constraint failed: users.email", cause := none }, s)
  else
    let u : UserRow := { id := s.userSeq + 1, name, email, created_at := now }
    (.ok u, { s with users := s.users ++ [u], userSeq := s.userSeq + 1 })

/-- Modelled from the spec: updateUser sets name and email of the row with
the given id; moving to an email already used by another row violates the
UNIQUE constraint and leaves the state unchanged. -/
def updateUser (id : Nat) (name email : String) (s : DBState) :
    Result (Option UserRow) DbError × DBState :=
  if s.users.any (fun u => u.email == email && u.id != id) then
    (.err { message := "UNIQUE constraint failed: users.email", cause := none }, s)
  else
    let users := s.users.map (fun u =>
      if u.id == id then { u with name := name, email := email } else u)
    (.ok (users.find? (fun u => u.id == id)), { s with users := users })

/-- Modelled from the spec: deleteUser deletes the tasks of the user and
then the user row itself (the application layer deletes dependents first;
there is no automatic cascade). -/
def deleteUser (id : Nat) (s : DBState) : Result Unit DbError × DBState :=
  (.ok (), { s with
    users := s.users.filter (fun u => u.id != id),
    tasks := s.tasks.filter (fun t => t.user_id != id) })

/-- Modelled from the spec: getTasks runs SELECT * FROM tasks WHERE
user_id = ? and returns the matching rows. -/
def getTasks (userId : Nat) (s : DBState) : Result (List TaskRow) DbError :=
  .ok (s.tasks.filter (fun t => t.user_id == userId))

/-- Modelled from the spec: getTask runs SELECT * FROM tasks WHERE id = ?
and returns the first matching row, if any. -/
def getTask (id : Nat) (s : DBState) : Result (Option TaskRow) DbError :=
  .ok (s.tasks.find? (fun t => t.id == id))

/-- Modelled from the spec: createTask inserts a task row with the next
AUTOINCREMENT id and completed defaulting to 0; sql.js does not enforce
the foreign key by default, so the insert always succeeds. -/
def createTask (now : String) (userId : Nat) (title description : String)
    (s : DBState) : Result TaskRow DbError × DBState :=
  let t : TaskRow := { id := s.taskSeq + 1, user_id := userId, title,
                       description, completed := false, created_at := now }
  (.ok t, { s with tasks := s.tasks ++ [t], taskSeq := s.taskSeq + 1 })

/-- Modelled from the spec: updateTask sets the fields that are provided
(absent arguments leave the column unchanged) on the row with the given
id. -/
def updateTask (id : Nat) (title description : Option String)
    (completed : Option Bool) (s : DBState) :
    Result (Option TaskRow) DbError × DBState :=
  let tasks := s.tasks.map (fun t =>
    if t.id == id then
      { t with
        title := title.getD t.title,
        description := description.getD t.description,
        completed := completed.getD t.completed }
    else t)
  (.ok (tasks.find? (fun t => t.id == id)), { s with tasks := tasks })

/-- Modelled from the spec: deleteTask removes the row with the given
id. -/
def deleteTask (id : Nat) (s : DBState) : Result Unit DbError × DBState :=
  (.ok (), { s with tasks := s.tasks.filter (fun t => t.id != id) })

/-- Modelled from the spec: getAllTasks fetches all tasks grouped by
user. -/
def getAllTasks (s : DBState) : Result (List (Nat × List TaskRow)) DbError :=
  .ok (s.users.map (fun u => (u.id, s.tasks.filter (fun t => t.user_id == u.id))))

/-! ## Serialization of the whole database (db.export / saveDatabase)

Modelled from the spec: every mutation serializes the entire in-memory
database to a byte buffer and overwrites the backing file; the buffer
format is engine-internal, so an explicit length-prefixed encoding of the full
state stands in for the engine-native export format. -/

/-- Length-prefixed encoding of a string into the byte buffer. -/
def encodeString (t : String) : List Nat :=
  t.length :: t.data.map Char.toNat

/-- Decode a length-prefixed string, returning the remaining buffer. -/
def decodeString : List Nat → Option (String × List Nat)
  | [] => none
  | n :: rest =>
    if n ≤ rest.length then
      some (String.mk ((rest.take n).map Char.ofNat), rest.drop n)
    else none

/-- Encoding of a boolean column value (stored as 0 or 1). -/
def encodeBool (b : Bool) : Nat :=
  cond b 1 0

/-- Decode a boolean column value. -/
def decodeBool : Nat → Option Bool
  | 0 => some false
  | 1 => some true
  | _ => none

/-- Encoding of one users row. -/
def encodeUser (u : UserRow) : List Nat :=
  u.id :: (encodeString u.name ++ (encodeString u.email ++ encodeString u.created_at))

/-- Decode one users row, returning the remaining buffer. -/
def decodeUser : List Nat → Option (UserRow × List Nat)
  | [] => none
  | id :: rest =>
    match decodeString rest with
    | none => none
    | some (name, r1) =>
      match decodeString r1 with
      | none => none
      | some (email, r2) =>
        match decodeString r2 with
        | none => none
        | some (ca, r3) => some ({ id, name, email, created_at := ca }, r3)

/-- Encoding of one tasks row. -/
def encodeTask (t : TaskRow) : List Nat :=
  t.id :: t.user_id :: encodeBool t.completed ::
    (encodeString t.title ++ (encodeString t.description ++ encodeString t.created_at))

/-- Decode one tasks row, returning the remaining buffer. -/
def decodeTask : List Nat → Option (TaskRow × List Nat)
  | id :: uid :: c :: rest =>
    match decodeBool c with
    | none => none
    | some completed =>
      match decodeString rest with
      | none => none
      | some (title, r1) =>
        match decodeString r1 with
        | none => none
        | some (description, r2) =>
          match decodeString r2 with
          | none => none
          | some (ca, r3) =>
            some ({ id, user_id := uid, title, description, completed,
                    created_at := ca }, r3)
  | _ => none

/-- Concatenate the encodings of a list of rows. -/
def encodeMany {α : Type} (enc : α → List Nat) : List α → List Nat
  | [] => []
  | x :: xs => enc x ++ encodeMany enc xs

/-- Decode a known number of rows, returning the remaining buffer. -/
def decodeMany {α : Type} (dec : List Nat → Option (α × List Nat)) :
    Nat → List Nat → Option (List α × List Nat)
  | 0, l => some ([], l)
  | k + 1, l =>
    match dec l with
    | none => none
    | some (x, r) =>
      match decodeMany dec k r with
      | none => none
      | some (xs, r2) => some (x :: xs, r2)

/-- Length-prefixed encoding of a table. -/
def encodeListWith {α : Type} (enc : α → List Nat) (xs : List α) : List Nat :=
  xs.length :: encodeMany enc xs

/-- Decode a length-prefixed table, returning the remaining buffer. -/
def decodeListWith {α : Type} (dec : List Nat → Option (α × List Nat)) :
    List Nat → Option (List α × List Nat)
  | [] => none
  | n :: rest => decodeMany dec n rest

/-- The full-database export: both sequence counters followed by both
tables. This is the byte buffer that saveDatabase writes to the backing
file. -/
def encodeDB (s : DBState) : List Nat :=
  s.userSeq :: s.taskSeq ::
    (encodeListWith encodeUser s.users ++ encodeListWith encodeTask s.tasks)

/-- Decode a full-database export; fails on a buffer that is not exactly
one whole export. -/
def decodeDB (l : List Nat) : Option DBState :=
  match l with
  | us :: ts :: rest =>
    match decodeListWith decodeUser rest with
    | none => none
    | some (users, r1) =>
      match decodeListWith decodeTask r1 with
      | none => none
      | some (tasks, r2) =>
        match r2 with
        | [] => some { users, tasks, userSeq := us, taskSeq := ts }
        | _ :: _ => none
  | _ => none


/-! ## Persistence wrapper and session singleton -/

/-- Modelled from the spec: saveDatabase exports the entire in-memory
database to a byte buffer and overwrites the backing file with it; the
returned buffer is the new file content. -/
def saveDatabase (s : DBState) : List Nat :=
  encodeDB s

/-- Modelled from the spec: initializing the engine from the bytes of the
backing file; none models a corrupt file, on which the engine throws. -/
def initFromBytes (bytes : List Nat) : Option DBState :=
  decodeDB bytes

/-- The write operations of app/db.ts, each one statement plus the
unconditional full export. -/
inductive Mutation : Type where
  | mkUser (now name email : String) : Mutation
  | updUser (id : Nat) (name email : String) : Mutation
  | delUser (id : Nat) : Mutation
  | mkTask (now : String) (userId : Nat) (title description : String) : Mutation
  | updTask (id : Nat) (title description : Option String)
      (completed : Option Bool) : Mutation
  | delTask (id : Nat) : Mutation

/-- Run one mutating statement against the engine, keeping only the
success/failure outcome. -/
def applyMutation : Mutation → DBState → Result Unit DbError × DBState
  | .mkUser now n e, s =>
    let (r, s2) := createUser now n e s
    (r.map (fun _ => ()), s2)
  | .updUser id n e, s =>
    let (r, s2) := updateUser id n e s
    (r.map (fun _ => ()), s2)
  | .delUser id, s => deleteUser id s
  | .mkTask now uid t d, s =>
    let (r, s2) := createTask now uid t d s
    (r.map (fun _ => ()), s2)
  | .updTask id t d c, s =>
    let (r, s2) := updateTask id t d c s
    (r.map (fun _ => ()), s2)
  | .delTask id, s => deleteTask id s

/-- Modelled from the spec: the mutation-then-persist wrapper executes one
statement and then unconditionally serializes the whole database,
overwriting the backing file; returns the outcome, the new engine state
and the new file content. -/
def runMutation (m : Mutation) (s : DBState) :
    Result Unit DbError × DBState × List Nat :=
  let (r, s2) := applyMutation m s
  (r, s2, saveDatabase s2)

/-- The read operations a session can serve. -/
inductive Query : Type where
  | qUsers : Query
  | qUser (id : Nat) : Query
  | qTasks (userId : Nat) : Query
  | qTask (id : Nat) : Query
  | qAllTasks : Query

/-- The rows a read operation returns, wrapped in the result container. -/
inductive QueryOut : Type where
  | usersOut (r : Result (List UserRow) DbError) : QueryOut
  | userOut (r : Result (Option UserRow) DbError) : QueryOut
  | tasksOut (r : Result (List TaskRow) DbError) : QueryOut
  | taskOut (r : Result (Option TaskRow) DbError) : QueryOut
  | allTasksOut (r : Result (List (Nat × List TaskRow)) DbError) : QueryOut
  deriving DecidableEq, Repr

/-- Serve one read operation against a session state. -/
def runQuery : Query → DBState → QueryOut
  | .qUsers, s => .usersOut (getUsers s)
  | .qUser id, s => .userOut (getUser id s)
  | .qTasks uid, s => .tasksOut (getTasks uid s)
  | .qTask id, s => .taskOut (getTask id s)
  | .qAllTasks, s => .allTasksOut (getAllTasks s)

/-- Modelled from the spec: the process-wide session holder. The second
argument is the singleton slot; on the first call (slot empty) the engine
is initialized from the backing file when one exists and freshly created
with the schema statements otherwise; subsequent calls return the already
initialized engine unchanged. A corrupt file surfaces as the propagated
engine exception. -/
def getDatabase (file : Option (List Nat)) (slot : Option DBState) :
    Except String (DBState × Option DBState) :=
  match slot with
  | some db => .ok (db, some db)
  | none =>
    match file with
    | some bytes =>
      match initFromBytes bytes with
      | some db => .ok (db, some db)
      | none => .error "Failed to load database file"
    | none => .ok (freshDatabase, some freshDatabase)

/-! ## createApiResponse (app/utils/api.ts)

app/utils/api.ts is not part of the provided sources (only its test
suite is), so the response helper is modelled from the spec: an ok result
maps to a 200 envelope with the data, an err result maps to an envelope
of formatted error descriptors whose HTTP status is determined by the
error kind. -/

/-- The error taxonomy of app/types/errors.ts. -/
inductive ApiError : Type where
  | databaseError (message : String) (cause : Option String) : ApiError
  | validationError (field : String) (message : String) : ApiError
  | notFoundError (resource : String) (id : Int) (message : String) : ApiError
  deriving DecidableEq, Repr

/-- The kind discriminator string of an error descriptor. -/
def ApiError.kind : ApiError → String
  | .databaseError _ _ => "DATABASE_ERROR"
  | .validationError _ _ => "VALIDATION_ERROR"
  | .notFoundError _ _ _ => "NOT_FOUND"

/-- The HTTP status mapped to one error kind: 500 for engine or I/O
failure, 400 for validation, 404 for not found. -/
def ApiError.status : ApiError → Nat
  | .databaseError _ _ => 500
  | .validationError _ _ => 400
  | .notFoundError _ _ _ => 404

/-- The JSON descriptor of one error: its kind and message, plus the
field name for validation errors and the resource and identifier for
not-found errors. -/
def formatApiError : ApiError → Json
  | .databaseError m _ =>
    .obj [("type", .str "DATABASE_ERROR"), ("message", .str m)]
  | .validationError f m =>
    .obj [("type", .str "VALIDATION_ERROR"), ("message", .str m),
          ("field", .str f)]
  | .notFoundError res i m =>
    .obj [("type", .str "NOT_FOUND"), ("message", .str m),
          ("resource", .str res), ("id", .num i)]

/-- The error payload of an err result: a single descriptor or an array
of descriptors. -/
inductive ApiErrorPayload : Type where
  | one (e : ApiError) : ApiErrorPayload
  | many (es : List ApiError) : ApiErrorPayload

/-- Normalize the error payload to an array, as Array.isArray does. -/
def ApiErrorPayload.toList : ApiErrorPayload → List ApiError
  | .one e => [e]
  | .many es => es

/-- An HTTP response: status code plus JSON body. -/
structure Resp : Type where
  status : Nat
  body : Json

/-- Modelled from the spec: createApiResponse maps an ok result to a 200
response with body success plus data, and an err result to a response
whose status comes from the first error kind and whose body carries
success false plus the formatted error descriptors. -/
def createApiResponse (result : Result Json ApiErrorPayload) : Resp :=
  match result with
  | .ok d => { status := 200, body := .obj [("success", .bool true), ("data", d)] }
  | .err payload =>
    let es := payload.toList
    let status := match es.head? with
      | some e => e.status
      | none => 500
    { status,
      body := .obj [("success", .bool false),
                    ("errors", .arr (es.map formatApiError))] }

/-! ## Route handlers

The handlers below are embedded from the route modules in the sources:
the tasks API (loader and action), the users API (loader and action), the
home route (loader and action) and the customer detail loader. Each is
parameterized over the database calls it awaits, mirroring how the test
suites exercise them against a mocked database module; a call returning
Except.error models a thrown exception caught by the surrounding
try/catch. -/

/-- The JSON error envelope the routes return. -/
def errBody (m : String) : Json :=
  .obj [("error", .str m)]

/-- The 405 response of the method guards. -/
def resp405 : Resp :=
  { status := 405, body := errBody "Method not allowed" }

/-- The expression task or null: a falsy database result is rendered as
JSON null. -/
def jsOrNull : Option Json → Json
  | some j => if jsTruthy j then j else .null
  | none => .null

/-- Strict comparison of the action discriminator against a switch case
label: only the exact string matches. -/
def actionIs (v : Option Json) (label : String) : Bool :=
  match v with
  | some (.str a) => a == label
  | _ => false

/-- One database call performed by the tasks routes, as observed by the
mocked module in the tests. -/
inductive DbCall : Type where
  | getTaskCall (id : Option Int) : DbCall
  | getTasksCall (userId : Option Int) : DbCall
  | createTaskCall (userId : Option Int) (title description : String) : DbCall
  | updateTaskCall (id : Option Int) (title description : Option String)
      (completed : Bool) : DbCall
  | deleteTaskCall (id : Option Int) : DbCall
  deriving DecidableEq, Repr

/-- The loader of app/routes/api.tsx for tasks: 405 on a non-GET method;
a truthy id query parameter selects the single-task lookup, otherwise a
truthy userId selects the by-user listing, otherwise 400; a thrown
database error yields 500. Returns the response and the database calls
made. -/
def tasksLoader (method : String) (idParam userIdParam : Option String)
    (getTaskF : Option Int → Except String (Option Json))
    (getTasksF : Option Int → Except String Json) : Resp × List DbCall :=
  if method ≠ "GET" then (resp405, [])
  else if strTruthy idParam then
    let n := jsParseInt (idParam.getD "")
    match getTaskF n with
    | .ok t => ({ status := 200, body := jsOrNull t }, [.getTaskCall n])
    | .error msg => ({ status := 500, body := errBody msg }, [.getTaskCall n])
  else if strTruthy userIdParam then
    let n := jsParseInt (userIdParam.getD "")
    match getTasksF n with
    | .ok ts => ({ status := 200, body := ts }, [.getTasksCall n])
    | .error msg => ({ status := 500, body := errBody msg }, [.getTasksCall n])
  else
    ({ status := 400, body := errBody "Missing required parameter: userId or id" }, [])

/-- The JSON body fields the tasks action reads. -/
structure TasksBody : Type where
  action : Option Json
  userId : Option Json
  title : Option Json
  description : Option Json
  id : Option Json
  completed : Option Json

/-- The action of the tasks API route: 405 on a non-POST method; a body
parse failure yields 500; the action discriminator selects create, toggle
or delete, each validating its required fields (400 when missing); in the
toggle case a completed value that is not a JSON boolean is coerced to
false. Returns the response and the database calls made. -/
def tasksAction (method : String) (body : Except String TasksBody)
    (createTaskF : Option Int → String → String → Except String Json)
    (updateTaskF : Option Int → Option String → Option String → Bool →
      Except String Json)
    (deleteTaskF : Option Int → Except String Json) : Resp × List DbCall :=
  if method ≠ "POST" then (resp405, [])
  else
    match body with
    | .error msg => ({ status := 500, body := errBody msg }, [])
    | .ok b =>
      if actionIs b.action "create" then
        if !jsTruthyOpt b.userId || !jsTruthyOpt b.title then
          ({ status := 400, body := errBody "Missing required fields: userId, title" }, [])
        else
          let uid := jsParseInt (jsStringOpt b.userId)
          let title := jsStringOpt b.title
          let desc := if jsTruthyOpt b.description then jsStringOpt b.description else ""
          match createTaskF uid title desc with
          | .ok j => ({ status := 201, body := j }, [.createTaskCall uid title desc])
          | .error msg =>
            ({ status := 500, body := errBody msg }, [.createTaskCall uid title desc])
      else if actionIs b.action "toggle" then
        if !jsTruthyOpt b.id then
          ({ status := 400, body := errBody "Missing required field: id" }, [])
        else
          let n := jsParseInt (jsStringOpt b.id)
          let c := match b.completed with
            | some (.bool cb) => cb
            | _ => false
          match updateTaskF n none none c with
          | .ok j => ({ status := 200, body := j }, [.updateTaskCall n none none c])
          | .error msg =>
            ({ status := 500, body := errBody msg }, [.updateTaskCall n none none c])
      else if actionIs b.action "delete" then
        if !jsTruthyOpt b.id then
          ({ status := 400, body := errBody "Missing required field: id" }, [])
        else
          let n := jsParseInt (jsStringOpt b.id)
          match deleteTaskF n with
          | .ok _ =>
            ({ status := 200, body := .obj [("success", .bool true)] }, [.deleteTaskCall n])
          | .error msg => ({ status := 500, body := errBody msg }, [.deleteTaskCall n])
      else
        ({ status := 400, body := errBody "Invalid action" }, [])

/-- The loader of the users API route: 405 on a non-GET method; a truthy
id query parameter selects the single-user lookup, otherwise all users
are returned; a thrown database error yields 500. -/
def usersLoader (method : String) (idParam : Option String)
    (getUserF : Option Int → Except String (Option Json))
    (getUsersF : Except String Json) : Resp :=
  if method ≠ "GET" then resp405
  else if strTruthy idParam then
    let n := jsParseInt (idParam.getD "")
    match getUserF n with
    | .ok u => { status := 200, body := jsOrNull u }
    | .error msg => { status := 500, body := errBody msg }
  else
    match getUsersF with
    | .ok us => { status := 200, body := us }
    | .error msg => { status := 500, body := errBody msg }

/-- The JSON body fields the users action reads. -/
structure UsersBody : Type where
  action : Option Json
  name : Option Json
  email : Option Json
  id : Option Json

/-- The action of the users API route: 405 on a non-POST method; a body
parse failure yields 500; create, update and delete validate their
required fields (400 when missing); a thrown database error yields
500. -/
def usersAction (method : String) (body : Except String UsersBody)
    (createUserF : String → String → Except String Json)
    (updateUserF : Option Int → String → String → Except String Json)
    (deleteUserF : Option Int → Except String Json) : Resp :=
  if method ≠ "POST" then resp405
  else
    match body with
    | .error msg => { status := 500, body := errBody msg }
    | .ok b =>
      if actionIs b.action "create" then
        if !jsTruthyOpt b.name || !jsTruthyOpt b.email then
          { status := 400, body := errBody "Missing required fields: name, email" }
        else
          match createUserF (jsStringOpt b.name) (jsStringOpt b.email) with
          | .ok j => { status := 201, body := j }
          | .error msg => { status := 500, body := errBody msg }
      else if actionIs b.action "update" then
        if !jsTruthyOpt b.id || !jsTruthyOpt b.name || !jsTruthyOpt b.email then
          { status := 400, body := errBody "Missing required fields: id, name, email" }
        else
          match updateUserF (jsParseInt (jsStringOpt b.id)) (jsStringOpt b.name)
              (jsStringOpt b.email) with
          | .ok j => { status := 200, body := j }
          | .error msg => { status := 500, body := errBody msg }
      else if actionIs b.action "delete" then
        if !jsTruthyOpt b.id then
          { status := 400, body := errBody "Missing required field: id" }
        else
          match deleteUserF (jsParseInt (jsStringOpt b.id)) with
          | .ok _ => { status := 200, body := .obj [("success", .bool true)] }
          | .error msg => { status := 500, body := errBody msg }
      else
        { status := 400, body := errBody "Invalid action" }

/-- What a React Router loader can produce: a Response or plain loader
data. -/
inductive LoaderOut : Type where
  | resp (r : Resp) : LoaderOut
  | data (j : Json) : LoaderOut

/-- The status code of a loader outcome, when it is a Response. -/
def loaderStatus : Except String LoaderOut → Option Nat
  | .ok (.resp r) => some r.status
  | _ => none

/-- The loader of app/routes/home.tsx: it reads the request but performs
no method check and no error handling; it awaits getUsers and getAllTasks
and returns their rows as plain loader data, propagating any thrown
database error. -/
def homeLoader (_method : String) (getUsersF getAllTasksF : Except String Json) :
    Except String LoaderOut :=
  match getUsersF with
  | .error msg => .error msg
  | .ok us =>
    match getAllTasksF with
    | .error msg => .error msg
    | .ok ts => .ok (.data (.obj [("users", us), ("tasks", ts)]))

/-- The form fields the home action reads. -/
structure HomeForm : Type where
  action : Option String
  name : Option String
  email : Option String
  id : Option String
  userId : Option String
  title : Option String
  description : Option String
  completed : Option String

/-- The action of app/routes/home.tsx: 405 on a non-POST method; the form
action discriminator selects create, update, delete, create_task,
toggle_task or delete_task, each validating its required fields (400 when
missing); in toggle_task the completed argument is the comparison of the
form value against the string true; a thrown error yields 500. -/
def homeAction (method : String) (form : Except String HomeForm)
    (createUserF : String → String → Except String Json)
    (updateUserF : Option Int → String → String → Except String Json)
    (deleteUserF : Option Int → Except String Json)
    (createTaskF : Option Int → String → String → Except String Json)
    (updateTaskF : Option Int → Option String → Option String → Bool →
      Except String Json)
    (deleteTaskF : Option Int → Except String Json) : Resp :=
  if method ≠ "POST" then resp405
  else
    match form with
    | .error msg => { status := 500, body := errBody msg }
    | .ok f =>
      if f.action = some "create" then
        if !strTruthy f.name || !strTruthy f.email then
          { status := 400, body := errBody "Missing required fields: name, email" }
        else
          match createUserF (f.name.getD "") (f.email.getD "") with
          | .ok j => { status := 201, body := j }
          | .error msg => { status := 500, body := errBody msg }
      else if f.action = some "update" then
        if !strTruthy f.id || !strTruthy f.name || !strTruthy f.email then
          { status := 400, body := errBody "Missing required fields: id, name, email" }
        else
          match updateUserF (jsParseInt (f.id.getD "")) (f.name.getD "")
              (f.email.getD "") with
          | .ok j => { status := 200, body := j }
          | .error msg => { status := 500, body := errBody msg }
      else if f.action = some "delete" then
        if !strTruthy f.id then
          { status := 400, body := errBody "Missing required field: id" }
        else
          match deleteUserF (jsParseInt (f.id.getD "")) with
          | .ok _ => { status := 200, body := .obj [("success", .bool true)] }
          | .error msg => { status := 500, body := errBody msg }
      else if f.action = some "create_task" then
        if !strTruthy f.userId || !strTruthy f.title then
          { status := 400, body := errBody "Missing required fields: userId, title" }
        else
          let desc := if strTruthy f.description then f.description.getD "" else ""
          match createTaskF (jsParseInt (f.userId.getD "")) (f.title.getD "") desc with
          | .ok j => { status := 201, body := j }
          | .error msg => { status := 500, body := errBody msg }
      else if f.action = some "toggle_task" then
        if !strTruthy f.id then
          { status := 400, body := errBody "Missing required field: id" }
        else
          match updateTaskF (jsParseInt (f.id.getD "")) none none
              (f.completed == some "true") with
          | .ok j => { status := 200, body := j }
          | .error msg => { status := 500, body := errBody msg }
      else if f.action = some "delete_task" then
        if !strTruthy f.id then
          { status := 400, body := errBody "Missing required field: id" }
        else
          match deleteTaskF (jsParseInt (f.id.getD "")) with
          | .ok _ => { status := 200, body := .obj [("success", .bool true)] }
          | .error msg => { status := 500, body := errBody msg }
      else
        { status := 400, body := errBody "Invalid action" }

/-- What a route module returns to the framework: a thrown Response or a
returned value. -/
inductive RouteResult : Type where
  | thrown (r : Resp) : RouteResult
  | value (j : Json) : RouteResult

/-- The customer detail loader: it looks up the customer by the id route
parameter and throws a 404 Response when the lookup errs or the value is
missing; otherwise it returns the customer. -/
def customerDetailLoader (idParam : String)
    (getCustomerByIdF : Option Int → Result (Option Json) DbError) :
    RouteResult :=
  let n := jsParseInt idParam
  match getCustomerByIdF n with
  | .err _ => .thrown { status := 404, body := .str "Customer not found" }
  | .ok v =>
    match v with
    | none => .thrown { status := 404, body := .str "Customer not found" }
    | some c =>
      if jsTruthy c then .value c
      else .thrown { status := 404, body := .str "Customer not found" }

/-- The AUTOINCREMENT invariant maintained by the engine: every row id is
at most the sqlite_sequence counter of its table. -/
def WF (s : DBState) : Prop :=
  (∀ u ∈ s.users, u.id ≤ s.userSeq) ∧ (∀ t ∈ s.tasks, t.id ≤ s.taskSeq)

instance (s : DBState) : Decidable (WF s) := by
  unfold WF
  infer_instance

/-! ## Roundtrip lemmas for the export format -/

theorem decodeString_encodeString (t : String) (r : List Nat) :
    decodeString (encodeString t ++ r) = some (t, r) := by
  show decodeString (t.length :: (t.data.map Char.toNat ++ r)) = some (t, r)
  have hlen : t.length ≤ (t.data.map Char.toNat ++ r).length := by
    rw [List.length_append, List.length_map]
    exact Nat.le_add_right _ _
  have hl : t.length = (t.data.map Char.toNat).length := by
    rw [List.length_map]
    rfl
  rw [decodeString, if_pos hlen, hl, List.take_left, List.drop_left,
    List.map_map]
  have hmap : t.data.map (Char.ofNat ∘ Char.toNat) = t.data := by
    have : (Char.ofNat ∘ Char.toNat) = fun c : Char => c := by
      funext c
      exact Char.ofNat_toNat c
    rw [this, List.map_id']
  rw [hmap]

theorem decodeBool_encodeBool (b : Bool) :
    decodeBool (encodeBool b) = some b := by
  cases b <;> rfl

theorem decodeUser_encodeUser (u : UserRow) (r : List Nat) :
    decodeUser (encodeUser u ++ r) = some (u, r) := by
  show decodeUser (u.id :: (encodeString u.name ++
    (encodeString u.email ++ encodeString u.created_at) ++ r)) = some (u, r)
  rw [List.append_assoc, List.append_assoc]
  simp only [decodeUser, decodeString_encodeString]

theorem decodeTask_encodeTask (t : TaskRow) (r : List Nat) :
    decodeTask (encodeTask t ++ r) = some (t, r) := by
  show decodeTask (t.id :: t.user_id :: encodeBool t.completed ::
    (encodeString t.title ++
      (encodeString t.description ++ encodeString t.created_at) ++ r)) =
    some (t, r)
  rw [List.append_assoc, List.append_assoc]
  simp only [decodeTask, decodeBool_encodeBool, decodeString_encodeString]

theorem decodeMany_encodeMany {α : Type}
    (enc : α → List Nat) (dec : List Nat → Option (α × List Nat))
    (hrt : ∀ x r, dec (enc x ++ r) = some (x, r))
    (xs : List α) (r : List Nat) :
    decodeMany dec xs.length (encodeMany enc xs ++ r) = some (xs, r) := by
  induction xs generalizing r with
  | nil => rfl
  | cons x xs ih =>
    show decodeMany dec (xs.length + 1) (enc x ++ encodeMany enc xs ++ r) =
      some (x :: xs, r)
    rw [List.append_assoc]
    simp only [decodeMany, hrt, ih]

theorem decodeListWith_encodeListWith {α : Type}
    (enc : α → List Nat) (dec : List Nat → Option (α × List Nat))
    (hrt : ∀ x r, dec (enc x ++ r) = some (x, r))
    (xs : List α) (r : List Nat) :
    decodeListWith dec (encodeListWith enc xs ++ r) = some (xs, r) := by
  show decodeListWith dec (xs.length :: (encodeMany enc xs ++ r)) = some (xs, r)
  simp only [decodeListWith, decodeMany_encodeMany enc dec hrt]

theorem decodeDB_encodeDB (s : DBState) : decodeDB (encodeDB s) = some s := by
  have h1 := decodeListWith_encodeListWith encodeUser decodeUser
    decodeUser_encodeUser s.users (encodeListWith encodeTask s.tasks)
  have h2 := decodeListWith_encodeListWith encodeTask decodeTask
    decodeTask_encodeTask s.tasks []
  rw [List.append_nil] at h2
  simp only [decodeDB, encodeDB, h1, h2]

/-! ## Helper lemmas -/

theorem result_ok_or_err {α ε : Type} (r : Result α ε) :
    (∃ v, r = Result.ok v) ∨ (∃ e, r = Result.err e) := by
  cases r with
  | ok v => exact Or.inl ⟨v, rfl⟩
  | err e => exact Or.inr ⟨e, rfl⟩

/-! ## Claims about persistence and the session -/

/-- C1: For every successful mutation (create, update, or delete of a
user or task), the entire in-memory database is serialized to a byte
buffer and written to the backing file, and a fresh session initialized
from those bytes reproduces the exact post-mutation state: every read
against the restarted session returns the same rows as against the
original session. -/
theorem mutation_persist_restart_consistency (m : Mutation) (s : DBState)
    (_h : (runMutation m s).1 = Result.ok ()) :
    (runMutation m s).2.2 = saveDatabase (runMutation m s).2.1 ∧
    initFromBytes (saveDatabase (runMutation m s).2.1) =
      some (runMutation m s).2.1 ∧
    ∀ q : Query,
      (initFromBytes (saveDatabase (runMutation m s).2.1)).map (runQuery q) =
        some (runQuery q (runMutation m s).2.1) := by
  refine ⟨rfl, decodeDB_encodeDB _, ?_⟩
  intro q
  show (decodeDB (encodeDB _)).map (runQuery q) = _
  rw [decodeDB_encodeDB]
  rfl

theorem mutation_persist_restart_consistency_witness :
    (runMutation (Mutation.mkUser "2024-01-01" "John Doe" "john@example.com")
        freshDatabase).1 = Result.ok () ∧
    initFromBytes (saveDatabase
        (runMutation (Mutation.mkUser "2024-01-01" "John Doe" "john@example.com")
          freshDatabase).2.1) =
      some (runMutation (Mutation.mkUser "2024-01-01" "John Doe" "john@example.com")
          freshDatabase).2.1 :=
  ⟨by decide,
    (mutation_persist_restart_consistency
      (Mutation.mkUser "2024-01-01" "John Doe" "john@example.com")
      freshDatabase (by decide)).2.1⟩

/-- C7: Every core database operation (getUsers, getUser, createUser,
updateUser, deleteUser, getTasks, getTask, createTask, updateTask,
deleteTask, getAllTasks) returns a success/failure Result container: for
every input it terminates in either an ok value or an err descriptor, and
never propagates an exception across its boundary to the caller. -/
theorem operations_return_result_container :
    (∀ s, (∃ v, getUsers s = Result.ok v) ∨ (∃ e, getUsers s = Result.err e)) ∧
    (∀ id s, (∃ v, getUser id s = Result.ok v) ∨ (∃ e, getUser id s = Result.err e)) ∧
    (∀ now n em s, (∃ v, (createUser now n em s).1 = Result.ok v) ∨
      (∃ e, (createUser now n em s).1 = Result.err e)) ∧
    (∀ id n em s, (∃ v, (updateUser id n em s).1 = Result.ok v) ∨
      (∃ e, (updateUser id n em s).1 = Result.err e)) ∧
    (∀ id s, (∃ v, (deleteUser id s).1 = Result.ok v) ∨
      (∃ e, (deleteUser id s).1 = Result.err e)) ∧
    (∀ uid s, (∃ v, getTasks uid s = Result.ok v) ∨
      (∃ e, getTasks uid s = Result.err e)) ∧
    (∀ id s, (∃ v, getTask id s = Result.ok v) ∨
      (∃ e, getTask id s = Result.err e)) ∧
    (∀ now uid t d s, (∃ v, (createTask now uid t d s).1 = Result.ok v) ∨
      (∃ e, (createTask now uid t d s).1 = Result.err e)) ∧
    (∀ id t d c s, (∃ v, (updateTask id t d c s).1 = Result.ok v) ∨
      (∃ e, (updateTask id t d c s).1 = Result.err e)) ∧
    (∀ id s, (∃ v, (deleteTask id s).1 = Result.ok v) ∨
      (∃ e, (deleteTask id s).1 = Result.err e)) ∧
    (∀ s, (∃ v, getAllTasks s = Result.ok v) ∨
      (∃ e, getAllTasks s = Result.err e)) :=
  ⟨fun _ => result_ok_or_err _,
   fun _ _ => result_ok_or_err _,
   fun _ _ _ _ => result_ok_or_err _,
   fun _ _ _ _ => result_ok_or_err _,
   fun _ _ => result_ok_or_err _,
   fun _ _ => result_ok_or_err _,
   fun _ _ => result_ok_or_err _,
   fun _ _ _ _ _ => result_ok_or_err _,
   fun _ _ _ _ _ => result_ok_or_err _,
   fun _ _ => result_ok_or_err _,
   fun _ => result_ok_or_err _⟩

/-- C8: The session holder is a process-wide singleton: on the first
call, if the backing file exists at the configured path its bytes are
loaded to initialize the engine, otherwise a fresh engine is created and
the schema-creation statements for the users and tasks tables are
executed; every subsequent call returns the same already-initialized
engine instance without re-running initialization. -/
theorem session_singleton_initialization :
    (∀ bytes db, initFromBytes bytes = some db →
      getDatabase (some bytes) none = Except.ok (db, some db)) ∧
    (getDatabase none none = Except.ok (freshDatabase, some freshDatabase)) ∧
    (∀ file db, getDatabase file (some db) = Except.ok (db, some db)) := by
  refine ⟨?_, rfl, ?_⟩
  · intro bytes db h
    rw [getDatabase, h]
  · intro file db
    rfl

theorem session_singleton_initialization_witness :
    initFromBytes (saveDatabase freshDatabase) = some freshDatabase ∧
    getDatabase (some (saveDatabase freshDatabase)) none =
      Except.ok (freshDatabase, some freshDatabase) :=
  ⟨by decide,
    session_singleton_initialization.1 (saveDatabase freshDatabase)
      freshDatabase (by decide)⟩

/-- C2: createApiResponse maps an ok result to a 200 response whose body
is success true with the data; it maps an err result to a body success
false with an errors array, with status 500 when the error type is
DATABASE_ERROR, 400 when it is VALIDATION_ERROR, and 404 when it is
NOT_FOUND, each error descriptor carrying its message and, for validation
errors, its field name. -/
theorem createApiResponse_status_mapping :
    (∀ d, createApiResponse (Result.ok d) =
      { status := 200, body := .obj [("success", .bool true), ("data", d)] }) ∧
    (∀ m c, createApiResponse (Result.err (.one (.databaseError m c))) =
      { status := 500,
        body := .obj [("success", .bool false),
          ("errors", .arr [.obj [("type", .str "DATABASE_ERROR"),
            ("message", .str m)]])] }) ∧
    (∀ f m, createApiResponse (Result.err (.one (.validationError f m))) =
      { status := 400,
        body := .obj [("success", .bool false),
          ("errors", .arr [.obj [("type", .str "VALIDATION_ERROR"),
            ("message", .str m), ("field", .str f)]])] }) ∧
    (∀ res i m, createApiResponse (Result.err (.one (.notFoundError res i m))) =
      { status := 404,
        body := .obj [("success", .bool false),
          ("errors", .arr [.obj [("type", .str "NOT_FOUND"),
            ("message", .str m), ("resource", .str res), ("id", .num i)]])] }) :=
  ⟨fun _ => rfl, fun _ _ => rfl, fun _ _ => rfl, fun _ _ _ => rfl⟩

theorem find?_user_id_of_nodup (l : List UserRow) (u : UserRow)
    (hu : u ∈ l) (hnd : (l.map UserRow.id).Nodup) :
    l.find? (fun x => x.id == u.id) = some u := by
  induction l with
  | nil => cases hu
  | cons a l ih =>
    rcases List.mem_cons.mp hu with rfl | hu2
    · simp [List.find?]
    · have hmem : u.id ∈ l.map UserRow.id := List.mem_map_of_mem _ hu2
      have hnotin : a.id ∉ l.map UserRow.id := (List.nodup_cons.mp hnd).1
      have hne : (a.id == u.id) = false := by
        rw [beq_eq_false_iff_ne]
        intro hEq
        exact hnotin (hEq ▸ hmem)
      simp only [List.find?, hne]
      exact ih hu2 (List.nodup_cons.mp hnd).2

/-- C3: For every state containing a user with a given email, attempting
to create a second user with the same email surfaces exactly one error
outcome, the user count stays unchanged, and the first user remains
retrievable with its original fields (the failed create leaves the state
unchanged). -/
theorem duplicate_email_single_error_state_unchanged
    (s : DBState) (u : UserRow) (now name2 : String)
    (hu : u ∈ s.users) (hnd : (s.users.map UserRow.id).Nodup) :
    (createUser now name2 u.email s).1 =
      Result.err { message := "UNIQUE constraint failed: users.email",
                   cause := none } ∧
    (createUser now name2 u.email s).2 = s ∧
    (createUser now name2 u.email s).2.users.length = s.users.length ∧
    getUser u.id (createUser now name2 u.email s).2 = Result.ok (some u) := by
  have hany : s.users.any (fun x => x.email == u.email) = true :=
    List.any_eq_true.mpr ⟨u, hu, by simp⟩
  have hstate : (createUser now name2 u.email s).2 = s := by
    simp [createUser, hany]
  refine ⟨by simp [createUser, hany], hstate, by rw [hstate], ?_⟩
  rw [hstate, getUser, find?_user_id_of_nodup s.users u hu hnd]

theorem duplicate_email_single_error_state_unchanged_witness :
    ({ id := 1, name := "User 1", email := "same@example.com",
       created_at := "2024-01-01" } : UserRow) ∈
      ({ users := [{ id := 1, name := "User 1", email := "same@example.com",
                     created_at := "2024-01-01" }], tasks := [],
         userSeq := 1, taskSeq := 0 } : DBState).users ∧
    (createUser "2024-01-02" "User 2" "same@example.com"
      { users := [{ id := 1, name := "User 1", email := "same@example.com",
                    created_at := "2024-01-01" }], tasks := [],
        userSeq := 1, taskSeq := 0 }).1 =
      Result.err { message := "UNIQUE constraint failed: users.email",
                   cause := none } :=
  ⟨by decide,
    (duplicate_email_single_error_state_unchanged
      { users := [{ id := 1, name := "User 1", email := "same@example.com",
                    created_at := "2024-01-01" }], tasks := [],
        userSeq := 1, taskSeq := 0 }
      { id := 1, name := "User 1", email := "same@example.com",
        created_at := "2024-01-01" }
      "2024-01-02" "User 2" (by decide) (by decide)).1⟩

/-- C5: For every valid entity input (a user with non-empty name and
valid email, or a task with non-empty title and existing user_id),
creating the entity and then reading it back by the identifier returned
from the create yields a record whose fields equal the input
(create-then-read round-trip). -/
theorem create_then_read_roundtrip (s : DBState) (hwf : WF s) :
    (∀ now name email r s2,
      createUser now name email s = (Result.ok r, s2) →
      getUser r.id s2 = Result.ok (some r) ∧ r.name = name ∧ r.email = email) ∧
    (∀ now uid title desc r s2,
      createTask now uid title desc s = (Result.ok r, s2) →
      getTask r.id s2 = Result.ok (some r) ∧ r.user_id = uid ∧
        r.title = title ∧ r.description = desc) := by
  constructor
  · intro now name email r s2 h
    by_cases hdup : s.users.any (fun x => x.email == email) = true
    · rw [createUser, if_pos hdup] at h
      exact Result.noConfusion (congrArg Prod.fst h)
    · rw [createUser, if_neg hdup] at h
      injection h with h1 h2
      injection h1 with h1
      subst h1
      subst h2
      refine ⟨?_, rfl, rfl⟩
      rw [getUser, List.find?_append]
      have hnone : s.users.find? (fun x => x.id == s.userSeq + 1) = none := by
        rw [List.find?_eq_none]
        intro x hx
        have hle := hwf.1 x hx
        simp only [beq_iff_eq]
        omega
      rw [hnone]
      simp [List.find?]
  · intro now uid title desc r s2 h
    rw [createTask] at h
    injection h with h1 h2
    injection h1 with h1
    subst h1
    subst h2
    refine ⟨?_, rfl, rfl, rfl⟩
    rw [getTask, List.find?_append]
    have hnone : s.tasks.find? (fun x => x.id == s.taskSeq + 1) = none := by
      rw [List.find?_eq_none]
      intro x hx
      have hle := hwf.2 x hx
      simp only [beq_iff_eq]
      omega
    rw [hnone]
    simp [List.find?]

theorem create_then_read_roundtrip_witness :
    WF freshDatabase ∧
    createUser "2024-01-01" "John Doe" "john@example.com" freshDatabase =
      (Result.ok { id := 1, name := "John Doe", email := "john@example.com",
                   created_at := "2024-01-01" },
       { users := [{ id := 1, name := "John Doe",
                     email := "john@example.com",
                     created_at := "2024-01-01" }], tasks := [],
         userSeq := 1, taskSeq := 0 }) ∧
    getUser 1
      { users := [{ id := 1, name := "John Doe", email := "john@example.com",
                    created_at := "2024-01-01" }], tasks := [],
        userSeq := 1, taskSeq := 0 } =
      Result.ok (some { id := 1, name := "John Doe",
                        email := "john@example.com",
                        created_at := "2024-01-01" }) :=
  ⟨by decide, by decide,
    ((create_then_read_roundtrip freshDatabase (by decide)).1
      "2024-01-01" "John Doe" "john@example.com"
      { id := 1, name := "John Doe", email := "john@example.com",
        created_at := "2024-01-01" }
      { users := [{ id := 1, name := "John Doe", email := "john@example.com",
                    created_at := "2024-01-01" }], tasks := [],
        userSeq := 1, taskSeq := 0 }
      (by decide)).1⟩

/-! ## Claims about the route handlers -/

/-- C9: In the tasks API loader, for every GET request whose query string
contains both an id and a userId parameter, the single-task lookup by id
is performed and the by-user task listing is never invoked: id takes
precedence over userId. -/
theorem taskId_preferred_over_userId (tid uid : String) (htid : tid ≠ "")
    (gT : Option Int → Except String (Option Json))
    (gTs : Option Int → Except String Json) :
    (tasksLoader "GET" (some tid) (some uid) gT gTs).2 =
      [DbCall.getTaskCall (jsParseInt tid)] ∧
    ∀ n, DbCall.getTasksCall n ∉
      (tasksLoader "GET" (some tid) (some uid) gT gTs).2 := by
  have htr : strTruthy (some tid) = true := by
    simp only [strTruthy, bne_iff_ne, ne_eq, decide_not]
    simpa using htid
  have hmain : (tasksLoader "GET" (some tid) (some uid) gT gTs).2 =
      [DbCall.getTaskCall (jsParseInt tid)] := by
    rw [tasksLoader, if_neg (fun hc => hc rfl), if_pos htr]
    simp only [Option.getD]
    cases hg : gT (jsParseInt tid) with
    | ok t => simp [hg]
    | error m => simp [hg]
  refine ⟨hmain, ?_⟩
  intro n
  rw [hmain]
  intro hmem
  rcases List.mem_singleton.mp hmem with h
  exact DbCall.noConfusion h

theorem taskId_preferred_over_userId_witness :
    ("1" : String) ≠ "" ∧
    (tasksLoader "GET" (some "1") (some "2")
        (fun _ => Except.ok none) (fun _ => Except.ok Json.null)).2 =
      [DbCall.getTaskCall (jsParseInt "1")] :=
  ⟨by decide,
    (taskId_preferred_over_userId "1" "2" (by decide)
      (fun _ => Except.ok none) (fun _ => Except.ok Json.null)).1⟩

/-- C10: In the tasks API toggle action, for every POST request with an
id present, a completed field that is not a JSON boolean (for example the
string true) is coerced to false before the update call, so the task is
marked not-completed; only a literal boolean true marks it completed. -/
theorem toggle_nonboolean_completed_coerced_false (b : TasksBody)
    (cF : Option Int → String → String → Except String Json)
    (uF : Option Int → Option String → Option String → Bool →
      Except String Json)
    (dF : Option Int → Except String Json)
    (hact : b.action = some (Json.str "toggle"))
    (hid : jsTruthyOpt b.id = true) :
    (∀ v, b.completed = some v → (∀ cb, v ≠ Json.bool cb) →
      (tasksAction "POST" (Except.ok b) cF uF dF).2 =
        [DbCall.updateTaskCall (jsParseInt (jsStringOpt b.id)) none none false]) ∧
    (b.completed = some (Json.bool true) →
      (tasksAction "POST" (Except.ok b) cF uF dF).2 =
        [DbCall.updateTaskCall (jsParseInt (jsStringOpt b.id)) none none true]) := by
  have hcreate : actionIs b.action "create" = false := by
    rw [hact]
    decide
  have htoggle : actionIs b.action "toggle" = true := by
    rw [hact]
    decide
  constructor
  · intro v hv hnb
    have hc : (match b.completed with
        | some (Json.bool cb) => cb
        | _ => false) = false := by
      rw [hv]
      cases v with
      | bool cb => exact absurd rfl (hnb cb)
      | null => rfl
      | num n => rfl
      | str s => rfl
      | arr xs => rfl
      | obj fs => rfl
    cases huF : uF (jsParseInt (jsStringOpt b.id)) none none false with
    | ok j => simp [tasksAction, hcreate, htoggle, hid, hc, huF]
    | error m => simp [tasksAction, hcreate, htoggle, hid, hc, huF]
  · intro hv
    have hc : (match b.completed with
        | some (Json.bool cb) => cb
        | _ => false) = true := by
      rw [hv]
    cases huF : uF (jsParseInt (jsStringOpt b.id)) none none true with
    | ok j => simp [tasksAction, hcreate, htoggle, hid, hc, huF]
    | error m => simp [tasksAction, hcreate, htoggle, hid, hc, huF]

theorem toggle_nonboolean_completed_coerced_false_witness :
    (TasksBody.mk (some (Json.str "toggle")) none none none
        (some (Json.num 1)) (some (Json.str "true"))).completed =
      some (Json.str "true") ∧
    (tasksAction "POST"
        (Except.ok (TasksBody.mk (some (Json.str "toggle")) none none none
          (some (Json.num 1)) (some (Json.str "true"))))
        (fun _ _ _ => Except.ok Json.null)
        (fun _ _ _ _ => Except.ok Json.null)
        (fun _ => Except.ok Json.null)).2 =
      [DbCall.updateTaskCall
        (jsParseInt (jsStringOpt (some (Json.num 1)))) none none false] :=
  ⟨rfl,
    (toggle_nonboolean_completed_coerced_false
      (TasksBody.mk (some (Json.str "toggle")) none none none
        (some (Json.num 1)) (some (Json.str "true")))
      (fun _ _ _ => Except.ok Json.null)
      (fun _ _ _ _ => Except.ok Json.null)
      (fun _ => Except.ok Json.null)
      rfl rfl).1 (Json.str "true") rfl (fun _ h => nomatch h)⟩

/-- C4 counterexample: reading the non-existent task id 999 through the
tasks API loader returns a 200 response with body null (a success outcome
with empty data), not a not-found outcome as the claim states. -/
theorem nonexistent_task_success_null_cex :
    tasksLoader "GET" (some "999") none
      (fun _ => Except.ok none) (fun _ => Except.ok Json.null) =
    ({ status := 200, body := Json.null }, [DbCall.getTaskCall (some 999)]) := by
  rfl

/-- C4 amended: the customer detail loader throws a 404 not-found
Response for a non-existent id, but the tasks API loader returns a 200
success response with body null for a non-existent task id. -/
theorem nonexistent_id_outcomes_amended
    (idp : String)
    (gC : Option Int → Result (Option Json) DbError)
    (hC : gC (jsParseInt idp) = Result.ok none)
    (tid : String) (htid : tid ≠ "")
    (gT : Option Int → Except String (Option Json))
    (hT : gT (jsParseInt tid) = Except.ok none)
    (gTs : Option Int → Except String Json) :
    customerDetailLoader idp gC =
      RouteResult.thrown { status := 404, body := Json.str "Customer not found" } ∧
    (tasksLoader "GET" (some tid) none gT gTs).1 =
      { status := 200, body := Json.null } := by
  constructor
  · simp [customerDetailLoader, hC]
  · have htr : strTruthy (some tid) = true := by
      simp only [strTruthy, bne_iff_ne, ne_eq, decide_not]
      simpa using htid
    rw [tasksLoader, if_neg (fun hc => hc rfl), if_pos htr]
    simp only [Option.getD]
    rw [hT]
    rfl

theorem nonexistent_id_outcomes_amended_witness :
    (fun _ : Option Int => (Result.ok none : Result (Option Json) DbError))
        (jsParseInt "42") = Result.ok none ∧
    ("999" : String) ≠ "" ∧
    customerDetailLoader "42" (fun _ => Result.ok none) =
      RouteResult.thrown { status := 404, body := Json.str "Customer not found" } :=
  ⟨rfl, by decide,
    (nonexistent_id_outcomes_amended "42" (fun _ => Result.ok none) rfl
      "999" (by decide) (fun _ => Except.ok none) rfl
      (fun _ => Except.ok Json.null)).1⟩

/-- C6 counterexample: the home loader performs no method check: invoked
with the POST method it returns plain loader data, not a 405 response as
the claim states for every loader of the users, tasks and home routes. -/
theorem home_loader_no_method_check_cex :
    homeLoader "POST" (Except.ok (Json.arr [])) (Except.ok (Json.obj [])) =
      Except.ok (LoaderOut.data (Json.obj [("users", Json.arr []),
        ("tasks", Json.obj [])])) ∧
    loaderStatus (homeLoader "POST" (Except.ok (Json.arr []))
      (Except.ok (Json.obj []))) ≠ some 405 :=
  ⟨rfl, by decide⟩

theorem actionIs_false_of_ne (v : Option Json) (l1 l2 : String)
    (h : actionIs v l1 = true) (hne : l2 ≠ l1) : actionIs v l2 = false := by
  cases v with
  | none => simp [actionIs] at h
  | some j =>
    cases j with
    | str a =>
      have ha : a = l1 := by simpa [actionIs] using h
      subst ha
      simp [actionIs]
      exact fun hc => hne hc.symm
    | null => simp [actionIs] at h
    | bool b => simp [actionIs] at h
    | num n => simp [actionIs] at h
    | arr xs => simp [actionIs] at h
    | obj fs => simp [actionIs] at h

/-- C6 amended: the actions of the users, tasks and home routes return
405 with error Method not allowed for a method other than POST, and the
users and tasks API loaders return 405 for a method other than GET; the
home loader, however, performs no method check and behaves identically
for every method. In every branch of the users, tasks and home handlers a
request with missing required fields returns 400; a thrown database
failure is caught and returned as 500 by the users and tasks loaders and
by every action branch, while the home loader does not catch it and
propagates the thrown failure instead of returning a 500 response. -/
theorem method_and_error_status_amended :
    (∀ m idp uidp gT gTs, m ≠ "GET" →
      (tasksLoader m idp uidp gT gTs).1 = resp405) ∧
    (∀ m idp gU gUs, m ≠ "GET" → usersLoader m idp gU gUs = resp405) ∧
    (∀ m body cF uF dF, m ≠ "POST" →
      (tasksAction m body cF uF dF).1 = resp405) ∧
    (∀ m body cF uF dF, m ≠ "POST" → usersAction m body cF uF dF = resp405) ∧
    (∀ m form cF uF dF cTF uTF dTF, m ≠ "POST" →
      homeAction m form cF uF dF cTF uTF dTF = resp405) ∧
    (∀ m1 m2 gU gT, homeLoader m1 gU gT = homeLoader m2 gU gT) ∧
    (∀ idp uidp gT gTs, strTruthy idp = false → strTruthy uidp = false →
      (tasksLoader "GET" idp uidp gT gTs).1 =
        { status := 400,
          body := errBody "Missing required parameter: userId or id" }) ∧
    (∀ b cF uF dF, actionIs b.action "create" = true →
      jsTruthyOpt b.userId = false ∨ jsTruthyOpt b.title = false →
      (tasksAction "POST" (Except.ok b) cF uF dF).1 =
        { status := 400,
          body := errBody "Missing required fields: userId, title" }) ∧
    (∀ b cF uF dF, actionIs b.action "toggle" = true →
      jsTruthyOpt b.id = false →
      (tasksAction "POST" (Except.ok b) cF uF dF).1 =
        { status := 400, body := errBody "Missing required field: id" }) ∧
    (∀ b cF uF dF, actionIs b.action "delete" = true →
      jsTruthyOpt b.id = false →
      (tasksAction "POST" (Except.ok b) cF uF dF).1 =
        { status := 400, body := errBody "Missing required field: id" }) ∧
    (∀ b cF uF dF, actionIs b.action "create" = true →
      jsTruthyOpt b.name = false ∨ jsTruthyOpt b.email = false →
      usersAction "POST" (Except.ok b) cF uF dF =
        { status := 400,
          body := errBody "Missing required fields: name, email" }) ∧
    (∀ b cF uF dF, actionIs b.action "update" = true →
      jsTruthyOpt b.id = false ∨ jsTruthyOpt b.name = false ∨
        jsTruthyOpt b.email = false →
      usersAction "POST" (Except.ok b) cF uF dF =
        { status := 400,
          body := errBody "Missing required fields: id, name, email" }) ∧
    (∀ b cF uF dF, actionIs b.action "delete" = true →
      jsTruthyOpt b.id = false →
      usersAction "POST" (Except.ok b) cF uF dF =
        { status := 400, body := errBody "Missing required field: id" }) ∧
    (∀ f cF uF dF cTF uTF dTF, f.action = some "create" →
      strTruthy f.name = false ∨ strTruthy f.email = false →
      homeAction "POST" (Except.ok f) cF uF dF cTF uTF dTF =
        { status := 400,
          body := errBody "Missing required fields: name, email" }) ∧
    (∀ f cF uF dF cTF uTF dTF, f.action = some "update" →
      strTruthy f.id = false ∨ strTruthy f.name = false ∨
        strTruthy f.email = false →
      homeAction "POST" (Except.ok f) cF uF dF cTF uTF dTF =
        { status := 400,
          body := errBody "Missing required fields: id, name, email" }) ∧
    (∀ f cF uF dF cTF uTF dTF, f.action = some "delete" →
      strTruthy f.id = false →
      homeAction "POST" (Except.ok f) cF uF dF cTF uTF dTF =
        { status := 400, body := errBody "Missing required field: id" }) ∧
    (∀ f cF uF dF cTF uTF dTF, f.action = some "create_task" →
      strTruthy f.userId = false ∨ strTruthy f.title = false →
      homeAction "POST" (Except.ok f) cF uF dF cTF uTF dTF =
        { status := 400,
          body := errBody "Missing required fields: userId, title" }) ∧
    (∀ f cF uF dF cTF uTF dTF, f.action = some "toggle_task" →
      strTruthy f.id = false →
      homeAction "POST" (Except.ok f) cF uF dF cTF uTF dTF =
        { status := 400, body := errBody "Missing required field: id" }) ∧
    (∀ f cF uF dF cTF uTF dTF, f.action = some "delete_task" →
      strTruthy f.id = false →
      homeAction "POST" (Except.ok f) cF uF dF cTF uTF dTF =
        { status := 400, body := errBody "Missing required field: id" }) ∧
    (∀ idp uidp gT gTs msg, strTruthy idp = true →
      gT (jsParseInt (idp.getD "")) = Except.error msg →
      (tasksLoader "GET" idp uidp gT gTs).1 =
        { status := 500, body := errBody msg }) ∧
    (∀ idp uidp gT gTs msg, strTruthy idp = false → strTruthy uidp = true →
      gTs (jsParseInt (uidp.getD "")) = Except.error msg →
      (tasksLoader "GET" idp uidp gT gTs).1 =
        { status := 500, body := errBody msg }) ∧
    (∀ idp gU gUs msg, strTruthy idp = true →
      gU (jsParseInt (idp.getD "")) = Except.error msg →
      usersLoader "GET" idp gU gUs = { status := 500, body := errBody msg }) ∧
    (∀ idp gU msg, strTruthy idp = false →
      usersLoader "GET" idp gU (Except.error msg) =
        { status := 500, body := errBody msg }) ∧
    (∀ b cF uF dF msg, actionIs b.action "create" = true →
      jsTruthyOpt b.userId = true → jsTruthyOpt b.title = true →
      cF (jsParseInt (jsStringOpt b.userId)) (jsStringOpt b.title)
          (if jsTruthyOpt b.description then jsStringOpt b.description else "") =
        Except.error msg →
      (tasksAction "POST" (Except.ok b) cF uF dF).1 =
        { status := 500, body := errBody msg }) ∧
    (∀ b cF uF dF msg, actionIs b.action "toggle" = true →
      jsTruthyOpt b.id = true →
      uF (jsParseInt (jsStringOpt b.id)) none none
          (match b.completed with | some (Json.bool cb) => cb | _ => false) =
        Except.error msg →
      (tasksAction "POST" (Except.ok b) cF uF dF).1 =
        { status := 500, body := errBody msg }) ∧
    (∀ b cF uF dF msg, actionIs b.action "delete" = true →
      jsTruthyOpt b.id = true →
      dF (jsParseInt (jsStringOpt b.id)) = Except.error msg →
      (tasksAction "POST" (Except.ok b) cF uF dF).1 =
        { status := 500, body := errBody msg }) ∧
    (∀ b cF uF dF msg, actionIs b.action "create" = true →
      jsTruthyOpt b.name = true → jsTruthyOpt b.email = true →
      cF (jsStringOpt b.name) (jsStringOpt b.email) = Except.error msg →
      usersAction "POST" (Except.ok b) cF uF dF =
        { status := 500, body := errBody msg }) ∧
    (∀ b cF uF dF msg, actionIs b.action "update" = true →
      jsTruthyOpt b.id = true → jsTruthyOpt b.name = true →
      jsTruthyOpt b.email = true →
      uF (jsParseInt (jsStringOpt b.id)) (jsStringOpt b.name)
          (jsStringOpt b.email) = Except.error msg →
      usersAction "POST" (Except.ok b) cF uF dF =
        { status := 500, body := errBody msg }) ∧
    (∀ b cF uF dF msg, actionIs b.action "delete" = true →
      jsTruthyOpt b.id = true →
      dF (jsParseInt (jsStringOpt b.id)) = Except.error msg →
      usersAction "POST" (Except.ok b) cF uF dF =
        { status := 500, body := errBody msg }) ∧
    (∀ f cF uF dF cTF uTF dTF msg, f.action = some "create" →
      strTruthy f.name = true → strTruthy f.email = true →
      cF (f.name.getD "") (f.email.getD "") = Except.error msg →
      homeAction "POST" (Except.ok f) cF uF dF cTF uTF dTF =
        { status := 500, body := errBody msg }) ∧
    (∀ f cF uF dF cTF uTF dTF msg, f.action = some "update" →
      strTruthy f.id = true → strTruthy f.name = true →
      strTruthy f.email = true →
      uF (jsParseInt (f.id.getD "")) (f.name.getD "") (f.email.getD "") =
        Except.error msg →
      homeAction "POST" (Except.ok f) cF uF dF cTF uTF dTF =
        { status := 500, body := errBody msg }) ∧
    (∀ f cF uF dF cTF uTF dTF msg, f.action = some "delete" →
      strTruthy f.id = true →
      dF (jsParseInt (f.id.getD "")) = Except.error msg →
      homeAction "POST" (Except.ok f) cF uF dF cTF uTF dTF =
        { status := 500, body := errBody msg }) ∧
    (∀ f cF uF dF cTF uTF dTF msg, f.action = some "create_task" →
      strTruthy f.userId = true → strTruthy f.title = true →
      cTF (jsParseInt (f.userId.getD "")) (f.title.getD "")
          (if strTruthy f.description then f.description.getD "" else "") =
        Except.error msg →
      homeAction "POST" (Except.ok f) cF uF dF cTF uTF dTF =
        { status := 500, body := errBody msg }) ∧
    (∀ f cF uF dF cTF uTF dTF msg, f.action = some "toggle_task" →
      strTruthy f.id = true →
      uTF (jsParseInt (f.id.getD "")) none none (f.completed == some "true") =
        Except.error msg →
      homeAction "POST" (Except.ok f) cF uF dF cTF uTF dTF =
        { status := 500, body := errBody msg }) ∧
    (∀ f cF uF dF cTF uTF dTF msg, f.action = some "delete_task" →
      strTruthy f.id = true →
      dTF (jsParseInt (f.id.getD "")) = Except.error msg →
      homeAction "POST" (Except.ok f) cF uF dF cTF uTF dTF =
        { status := 500, body := errBody msg }) ∧
    (∀ m msg gT, homeLoader m (Except.error msg) gT = Except.error msg) ∧
    (∀ m u msg, homeLoader m (Except.ok u) (Except.error msg) =
      Except.error msg) := by
  refine ⟨?_, ?_, ?_, ?_, ?_, ?_, ?_, ?_, ?_, ?_, ?_, ?_, ?_, ?_, ?_, ?_,
    ?_, ?_, ?_, ?_, ?_, ?_, ?_, ?_, ?_, ?_, ?_, ?_, ?_, ?_, ?_, ?_, ?_,
    ?_, ?_, ?_, ?_⟩
  · intro m idp uidp gT gTs hm
    rw [tasksLoader, if_pos hm]
  · intro m idp gU gUs hm
    unfold usersLoader
    rw [if_pos hm]
  · intro m body cF uF dF hm
    unfold tasksAction
    rw [if_pos hm]
  · intro m body cF uF dF hm
    unfold usersAction
    rw [if_pos hm]
  · intro m form cF uF dF cTF uTF dTF hm
    unfold homeAction
    rw [if_pos hm]
  · intro m1 m2 gU gT
    rfl
  · intro idp uidp gT gTs h1 h2
    simp [tasksLoader, h1, h2]
  · intro b cF uF dF hact hmiss
    rcases hmiss with h | h <;> simp [tasksAction, hact, h]
  · intro b cF uF dF hact hid
    have hc := actionIs_false_of_ne b.action "toggle" "create" hact (by decide)
    simp [tasksAction, hact, hc, hid]
  · intro b cF uF dF hact hid
    have hc := actionIs_false_of_ne b.action "delete" "create" hact (by decide)
    have ht := actionIs_false_of_ne b.action "delete" "toggle" hact (by decide)
    simp [tasksAction, hact, hc, ht, hid]
  · intro b cF uF dF hact hmiss
    rcases hmiss with h | h <;> simp [usersAction, hact, h]
  · intro b cF uF dF hact hmiss
    have hc := actionIs_false_of_ne b.action "update" "create" hact (by decide)
    rcases hmiss with h | h | h <;> simp [usersAction, hact, hc, h]
  · intro b cF uF dF hact hid
    have hc := actionIs_false_of_ne b.action "delete" "create" hact (by decide)
    have hu := actionIs_false_of_ne b.action "delete" "update" hact (by decide)
    simp [usersAction, hact, hc, hu, hid]
  · intro f cF uF dF cTF uTF dTF hact hmiss
    rcases hmiss with h | h <;> simp [homeAction, hact, h]
  · intro f cF uF dF cTF uTF dTF hact hmiss
    rcases hmiss with h | h | h <;> simp [homeAction, hact, h]
  · intro f cF uF dF cTF uTF dTF hact hid
    simp [homeAction, hact, hid]
  · intro f cF uF dF cTF uTF dTF hact hmiss
    rcases hmiss with h | h <;> simp [homeAction, hact, h]
  · intro f cF uF dF cTF uTF dTF hact hid
    simp [homeAction, hact, hid]
  · intro f cF uF dF cTF uTF dTF hact hid
    simp [homeAction, hact, hid]
  · intro idp uidp gT gTs msg hidp hT
    simp [tasksLoader, hidp, hT]
  · intro idp uidp gT gTs msg hidp huidp hTs
    simp [tasksLoader, hidp, huidp, hTs]
  · intro idp gU gUs msg hidp hU
    simp [usersLoader, hidp, hU]
  · intro idp gU msg hidp
    simp [usersLoader, hidp]
  · intro b cF uF dF msg hact huid htitle hdb
    simp [tasksAction, hact, huid, htitle, hdb]
  · intro b cF uF dF msg hact hid hdb
    have hc := actionIs_false_of_ne b.action "toggle" "create" hact (by decide)
    simp [tasksAction, hact, hc, hid, hdb]
  · intro b cF uF dF msg hact hid hdb
    have hc := actionIs_false_of_ne b.action "delete" "create" hact (by decide)
    have ht := actionIs_false_of_ne b.action "delete" "toggle" hact (by decide)
    simp [tasksAction, hact, hc, ht, hid, hdb]
  · intro b cF uF dF msg hact hname hemail hdb
    simp [usersAction, hact, hname, hemail, hdb]
  · intro b cF uF dF msg hact hid hname hemail hdb
    have hc := actionIs_false_of_ne b.action "update" "create" hact (by decide)
    simp [usersAction, hact, hc, hid, hname, hemail, hdb]
  · intro b cF uF dF msg hact hid hdb
    have hc := actionIs_false_of_ne b.action "delete" "create" hact (by decide)
    have hu := actionIs_false_of_ne b.action "delete" "update" hact (by decide)
    simp [usersAction, hact, hc, hu, hid, hdb]
  · intro f cF uF dF cTF uTF dTF msg hact hname hemail hdb
    simp [homeAction, hact, hname, hemail, hdb]
  · intro f cF uF dF cTF uTF dTF msg hact hid hname hemail hdb
    simp [homeAction, hact, hid, hname, hemail, hdb]
  · intro f cF uF dF cTF uTF dTF msg hact hid hdb
    simp [homeAction, hact, hid, hdb]
  · intro f cF uF dF cTF uTF dTF msg hact huid htitle hdb
    simp [homeAction, hact, huid, htitle, hdb]
  · intro f cF uF dF cTF uTF dTF msg hact hid hdb
    simp [homeAction, hact, hid, hdb]
  · intro f cF uF dF cTF uTF dTF msg hact hid hdb
    simp [homeAction, hact, hid, hdb]
  · intro m msg gT
    rfl
  · intro m u msg
    rfl

theorem method_and_error_status_amended_witness :
    ("POST" : String) ≠ "GET" ∧
    (tasksLoader "POST" none none
        (fun _ => Except.ok none) (fun _ => Except.ok Json.null)).1 = resp405 :=
  ⟨by decide,
    method_and_error_status_amended.1 "POST" none none
      (fun _ => Except.ok none) (fun _ => Except.ok Json.null) (by decide)⟩

end ReactAppDb
